import Mathlib

/-!
Shallow embedding of the interview-capture frontend of this repository
(`InterviewSession.jsx`, `WebcamIframe.jsx`, `ResponseInput.jsx`,
`MockInterview.jsx`) and of the frame-classification HTTP endpoint
(`human_emotion_service.js`).

Pure data and control flow are translated into executable Lean functions.
The single-threaded cooperative event loops are modelled as step functions
over explicit state types, one event per run-to-completion callback
segment.  JavaScript floating-point scores are modelled as rationals and
machine timestamps as naturals; no property proved below depends on
float-specific behaviour.
-/

/-- One visual emotion sample, the element shape posted by the capture
iframe (`WebcamIframe.jsx`, the `postMessage` payload built after a
successful classification).  The float confidence is abstracted as an
integer number of tenths of a percent. -/
structure VisualSample where
  timestamp : Nat
  dominant_emotion : String
  confidenceTenths : Nat
  deriving DecidableEq, Repr

/-- A vocal (audio) emotion snapshot as stored by the host
(`InterviewSession.jsx`, the `audio_<i>` entries of `emotionData`). -/
structure AudioEmotion where
  emotion : String
  confidencePct : Nat
  deriving DecidableEq, Repr

/-- The payload given to `handleEmotionData`: either a posted array of
visual samples (the iframe message payload, whose `.type` is `undefined`)
or an object with `type === 'audio'`. -/
inductive EmotionDatum where
  | video (samples : List VisualSample)
  | audio (a : AudioEmotion)
  deriving DecidableEq, Repr

/-- The host's `emotionData` React state object (`InterviewSession.jsx`):
numeric keys map to the list of posted arrays appended for that question
index, and `audio_<i>` keys map to the latest audio snapshot. -/
structure EmotionStore where
  visual : Nat → List (List VisualSample)
  audio : Nat → Option AudioEmotion

/-- The initial (empty) `emotionData` object. -/
def emptyStore : EmotionStore := ⟨fun _ => [], fun _ => none⟩

/-- Function `handleEmotionData` of `InterviewSession.jsx` (lines 32-52):
an audio datum overwrites the `audio_<i>` slot and a video datum appends
the whole posted array to the list under key `i`, where `i` is
`currentQuestionIndexRef.current` read at invocation time. -/
def handleEmotionData (currentRefIndex : Nat) (datum : EmotionDatum)
    (st : EmotionStore) : EmotionStore :=
  match datum with
  | .audio a =>
      { st with audio := fun i => if i = currentRefIndex then some a else st.audio i }
  | .video samples =>
      { st with visual := fun i =>
          if i = currentRefIndex then st.visual i ++ [samples] else st.visual i }

/-- Host-side component state: the live mutable ref
`currentQuestionIndexRef` (overwritten on every render with the current
question index) plus the `emotionData` store. -/
structure HostState where
  currentQuestionIndexRef : Nat
  emotionData : EmotionStore

/-- The initial host state at session start (question index 0, no data). -/
def hostInit : HostState := ⟨0, emptyStore⟩

/-- A `message` DOM event as seen by `handleMessage` in
`WebcamIframe.jsx`.  The field `captureIndex` is ghost data recording
which question index was current when the frame was captured inside the
iframe; the code never transmits or reads it, it exists only so that
attribution can be stated. -/
structure MessageEvent where
  origin : String
  msgType : String
  samples : List VisualSample
  errText : String
  captureIndex : Nat
  deriving DecidableEq, Repr

/-- JavaScript `String.prototype.includes`: substring containment. -/
def strIncludes (s pat : String) : Bool := decide (pat.data <:+: s.data)

/-- The origin filter of `handleMessage` (`WebcamIframe.jsx` line 209):
the handler returns early unless
`event.origin.includes('localhost:5173') || event.origin.includes('.github.dev')`. -/
def originAllowed (origin : String) : Bool :=
  strIncludes origin "localhost:5173" || strIncludes origin ".github.dev"

/-- The origin of the one capture context the host creates: the iframe is
loaded from a `blob:` URL with `sandbox="allow-same-origin"`, so it
inherits the origin of the creating document — the Vite dev server
origin. -/
def hostOrigin : String := "http://localhost:5173"

/-- `handleMessage` of `WebcamIframe.jsx` (lines 207-218) composed with
the `onEmotionData` callback `handleEmotionData` of
`InterviewSession.jsx`: on a passing origin check, an `emotion-data`
message is dispatched to `handleEmotionData` with the live
`currentQuestionIndexRef.current`; a `camera-error` message only logs;
everything else changes nothing. -/
def processMessage (s : HostState) (ev : MessageEvent) : HostState :=
  if originAllowed ev.origin = false then s
  else if ev.msgType = "emotion-data" then
    { s with emotionData :=
        handleEmotionData s.currentQuestionIndexRef (.video ev.samples) s.emotionData }
  else s

/-- A host-scope event: either a render updating the live index ref
(`currentQuestionIndexRef.current = currentQuestionIndex`) or an incoming
`message` event. -/
inductive HostEvent where
  | setIndex (n : Nat)
  | message (ev : MessageEvent)

/-- One run-to-completion step of the host scope. -/
def hostStep (s : HostState) (e : HostEvent) : HostState :=
  match e with
  | .setIndex n => { s with currentQuestionIndexRef := n }
  | .message ev => processMessage s ev

/-- A fixed concrete sample used by concrete evaluations below. -/
def sampleW : VisualSample := ⟨1, "happy", 900⟩

/-- C1: for every visual emotion sample delivered from the capture context
to the host, `handleEmotionData` appends it to the list keyed by the
question index that is current at the moment the result message arrives
(read through the live mutable ref `currentQuestionIndexRef`), and every
other key — in particular the index current at capture time, when it
differs — is left unchanged. -/
theorem C1_live_index_attribution (s : HostState) (ev : MessageEvent)
    (hOrigin : originAllowed ev.origin = true)
    (hType : ev.msgType = "emotion-data") :
    ((processMessage s ev).emotionData.visual s.currentQuestionIndexRef
      = s.emotionData.visual s.currentQuestionIndexRef ++ [ev.samples])
    ∧ (∀ j, j ≠ s.currentQuestionIndexRef →
        (processMessage s ev).emotionData.visual j = s.emotionData.visual j) := by
  have hOrigin' : ¬ (originAllowed ev.origin = false) := by simp [hOrigin]
  constructor
  · simp [processMessage, hOrigin', hType, handleEmotionData]
  · intro j hj
    simp [processMessage, hOrigin', hType, handleEmotionData, hj]

/-- Witness for C1: a concrete delivery arriving while question 2 is
current, for a frame captured while question 1 was current, is filed
under question 2 and leaves question 1's list empty. -/
theorem C1_live_index_attribution_witness :
    originAllowed "http://localhost:5173" = true
    ∧ ((processMessage ⟨2, emptyStore⟩ ⟨"http://localhost:5173", "emotion-data", [sampleW], "", 1⟩).emotionData.visual 2
        = [[sampleW]])
    ∧ ((processMessage ⟨2, emptyStore⟩ ⟨"http://localhost:5173", "emotion-data", [sampleW], "", 1⟩).emotionData.visual 1
        = []) := by
  refine ⟨by decide, ?_, ?_⟩
  · exact (C1_live_index_attribution ⟨2, emptyStore⟩
      ⟨"http://localhost:5173", "emotion-data", [sampleW], "", 1⟩ (by decide) rfl).1
  · exact (C1_live_index_attribution ⟨2, emptyStore⟩
      ⟨"http://localhost:5173", "emotion-data", [sampleW], "", 1⟩ (by decide) rfl).2 1 (by decide)

/-- Counterexample for C8 as stated: the message handler acts (appends the
payload to the store) on a message whose origin
`https://evil.github.dev.example.com` is not the origin of any capture
context the host created (`hostOrigin`) — the substring check
`includes('.github.dev')` accepts it. -/
theorem C8_counterexample :
    ("https://evil.github.dev.example.com" ≠ hostOrigin)
    ∧ ((processMessage hostInit
          ⟨"https://evil.github.dev.example.com", "emotion-data", [sampleW], "", 0⟩).emotionData.visual 0
        = [[sampleW]])
    ∧ (hostInit.emotionData.visual 0 = []) := by
  refine ⟨by decide, by decide, by decide⟩

/-- C8 amended: the host acts on a message payload only if the origin
passes the substring filter (`includes('localhost:5173')` or
`includes('.github.dev')`) — a strict superset of the origins of contexts
the host itself created — and every message failing that filter causes no
state change at all. -/
theorem C8_origin_filter (s : HostState) (ev : MessageEvent) :
    (originAllowed ev.origin = false → processMessage s ev = s)
    ∧ (processMessage s ev ≠ s → originAllowed ev.origin = true)
    ∧ (ev.msgType ≠ "emotion-data" → processMessage s ev = s) := by
  refine ⟨?_, ?_, ?_⟩
  · intro h
    simp [processMessage, h]
  · intro h
    cases hb : originAllowed ev.origin with
    | false => exact absurd (by simp [processMessage, hb]) h
    | true => rfl
  · intro h
    by_cases ho : originAllowed ev.origin = false
    · simp [processMessage, ho]
    · simp [processMessage, ho, h]

/-- Witness for C8 amended: a message from `https://evil.example.com`
fails the filter and leaves the host state unchanged. -/
theorem C8_origin_filter_witness :
    originAllowed "https://evil.example.com" = false
    ∧ processMessage hostInit ⟨"https://evil.example.com", "emotion-data", [sampleW], "", 0⟩ = hostInit := by
  refine ⟨by decide, ?_⟩
  exact (C8_origin_filter hostInit ⟨"https://evil.example.com", "emotion-data", [sampleW], "", 0⟩).1 (by decide)

/-- Phase of one capture cycle inside the iframe script
(`startEmotionAnalysis` in `WebcamIframe.jsx`): idle, waiting for the
`canvas.toBlob` callback, or waiting for the classification `fetch` to
settle. -/
inductive CapturePhase where
  | idle
  | awaitingBlob
  | awaitingFetch
  deriving DecidableEq, Repr

/-- State of the capture loop: the `isAnalyzing` backpressure flag, the
cycle phase, and a ghost counter of classification requests currently in
flight (incremented when the `fetch` is issued, decremented when it
settles). -/
structure CaptureState where
  isAnalyzing : Bool
  phase : CapturePhase
  inFlight : Nat
  deriving DecidableEq, Repr

/-- How the classification `fetch` settles: HTTP success, a non-ok HTTP
response, or a network rejection (caught and logged). -/
inductive FetchOutcome where
  | ok
  | httpNotOk
  | netError
  deriving DecidableEq, Repr

/-- One run-to-completion event of the capture loop: an interval tick
(`videoReady` is `video.readyState === 4`, `captureOk` false models the
capture `try` block throwing), the `toBlob` callback (`nonNull` false
models a null blob), or the `fetch` settling (its `finally` clears the
flag). -/
inductive CaptureEvent where
  | tick (videoReady : Bool) (captureOk : Bool)
  | blobReady (nonNull : Bool)
  | fetchDone (o : FetchOutcome)
  deriving DecidableEq, Repr

/-- Initial capture-loop state (`isAnalyzing = false`, nothing pending). -/
def captureInit : CaptureState := ⟨false, .idle, 0⟩

/-- One step of the interval loop installed by `startEmotionAnalysis`
(`WebcamIframe.jsx` lines 100-161), one case per atomic callback segment:
a tick returns immediately when `isAnalyzing` is set or the video is not
ready, otherwise sets the flag and draws the frame (a capture exception
clears the flag in the `catch`); the `toBlob` callback clears the flag on
a null blob and otherwise issues the classification request; the request
settling clears the flag in `finally` on every outcome. -/
def captureStep (s : CaptureState) (e : CaptureEvent) : CaptureState :=
  match e with
  | .tick videoReady captureOk =>
    if s.isAnalyzing then s
    else if !videoReady then s
    else if captureOk then { s with isAnalyzing := true, phase := .awaitingBlob }
    else { s with isAnalyzing := false, phase := .idle }
  | .blobReady nonNull =>
    if s.phase = .awaitingBlob then
      if nonNull then { s with phase := .awaitingFetch, inFlight := s.inFlight + 1 }
      else { s with isAnalyzing := false, phase := .idle }
    else s
  | .fetchDone _ =>
    if s.phase = .awaitingFetch then
      { s with isAnalyzing := false, phase := .idle, inFlight := s.inFlight - 1 }
    else s

/-- Inductive invariant of the capture loop: at most one classification
request is in flight, a cleared flag means a fully idle cycle, and a
request is in flight exactly in the `awaitingFetch` phase. -/
def captureInv (s : CaptureState) : Prop :=
  s.inFlight ≤ 1
  ∧ (s.isAnalyzing = false → s.phase = CapturePhase.idle)
  ∧ s.inFlight = (if s.phase = CapturePhase.awaitingFetch then 1 else 0)

theorem captureInv_init : captureInv captureInit := by
  refine ⟨by decide, fun _ => rfl, by decide⟩

theorem captureInv_step (s : CaptureState) (e : CaptureEvent)
    (h : captureInv s) : captureInv (captureStep s e) := by
  obtain ⟨a, p, n⟩ := s
  obtain ⟨h1, h2, h3⟩ := h
  cases e with
  | tick videoReady captureOk =>
    cases a <;> cases videoReady <;> cases captureOk <;> cases p <;>
      simp_all [captureStep, captureInv]
  | blobReady nonNull =>
    cases nonNull <;> cases p <;> simp_all [captureStep, captureInv]
  | fetchDone o =>
    cases p <;> simp_all [captureStep, captureInv]

theorem captureInv_foldl (tr : List CaptureEvent) :
    ∀ s : CaptureState, captureInv s → captureInv (tr.foldl captureStep s) := by
  induction tr with
  | nil => intro s h; exact h
  | cons e tr ih =>
    intro s h
    exact ih (captureStep s e) (captureInv_step s e h)

/-- C2: the capture loop never has two classification requests in flight
at once — along any event trace from the initial state at most one request
is outstanding — and a tick while the backpressure flag is set captures
and dispatches nothing (the state is unchanged), while every completion
path clears the flag: the request settling (success, non-ok HTTP response,
network rejection), a null blob, and a capture exception. -/
theorem C2_backpressure (tr : List CaptureEvent) :
    ((tr.foldl captureStep captureInit).inFlight ≤ 1)
    ∧ (∀ s : CaptureState, s.isAnalyzing = true →
        ∀ videoReady captureOk, captureStep s (.tick videoReady captureOk) = s)
    ∧ (∀ s : CaptureState, ∀ o : FetchOutcome, s.phase = CapturePhase.awaitingFetch →
        (captureStep s (.fetchDone o)).isAnalyzing = false)
    ∧ (∀ s : CaptureState, s.phase = CapturePhase.awaitingBlob →
        (captureStep s (.blobReady false)).isAnalyzing = false)
    ∧ (∀ s : CaptureState, s.isAnalyzing = false →
        ∀ videoReady, (captureStep s (.tick videoReady false)).isAnalyzing = false) := by
  refine ⟨(captureInv_foldl tr captureInit captureInv_init).1, ?_, ?_, ?_, ?_⟩
  · intro s hs videoReady captureOk
    simp [captureStep, hs]
  · intro s o hp
    simp [captureStep, hp]
  · intro s hp
    simp [captureStep, hp]
  · intro s hs videoReady
    cases videoReady <;> simp [captureStep, hs]

/-- Witness for C2: a full concrete cycle (tick, blob, settled request)
keeps at most one request in flight, and the completion paths clear the
flag on concrete in-cycle states. -/
theorem C2_backpressure_witness :
    (([CaptureEvent.tick true true, CaptureEvent.blobReady true,
        CaptureEvent.fetchDone FetchOutcome.ok].foldl captureStep captureInit).inFlight ≤ 1)
    ∧ (captureStep ⟨true, CapturePhase.awaitingBlob, 0⟩ (.tick true true)
        = ⟨true, CapturePhase.awaitingBlob, 0⟩)
    ∧ ((captureStep ⟨true, CapturePhase.awaitingFetch, 1⟩ (.fetchDone FetchOutcome.netError)).isAnalyzing
        = false)
    ∧ ((captureStep ⟨true, CapturePhase.awaitingBlob, 0⟩ (.blobReady false)).isAnalyzing = false)
    ∧ ((captureStep ⟨false, CapturePhase.idle, 0⟩ (.tick true false)).isAnalyzing = false) := by
  have h := C2_backpressure [CaptureEvent.tick true true, CaptureEvent.blobReady true,
    CaptureEvent.fetchDone FetchOutcome.ok]
  exact ⟨h.1, h.2.1 _ rfl true true, h.2.2.1 _ FetchOutcome.netError rfl,
    h.2.2.2.1 _ rfl, h.2.2.2.2 _ rfl true⟩

/-- An element of `Object.values(emotionData).flat()`: `.flat()` flattens
the per-question arrays of posted sample arrays one level, and would leave
any non-array `audio_<i>` value intact. -/
inductive EmotionEntry where
  | videoArr (samples : List VisualSample)
  | audioObj (a : AudioEmotion)
  deriving DecidableEq, Repr

/-- `Object.values(emotionData).flat()` as computed in
`handleResponseSubmit` (`InterviewSession.jsx` line 88): JavaScript
enumerates integer-like keys in ascending order before the string keys
`audio_<i>`, so the flattened visual lists come first, followed by any
audio snapshots; `n` is `questions.length`, bounding the question
indices. -/
def objectValuesFlat (st : EmotionStore) (n : Nat) : List EmotionEntry :=
  ((List.range n).map (fun i => (st.visual i).map EmotionEntry.videoArr)).flatten
  ++ ((List.range n).filterMap (fun i => (st.audio i).map EmotionEntry.audioObj))

/-- One observable effect of the session state machine around
`handleResponseSubmit` / `handleInterviewComplete`. -/
inductive SessionAction where
  | submitResponse (text : String) (timeSpent : Nat)
  | setRecordingOff
  | emotionSummaryRequest (payload : List EmotionEntry)
  | graceDelay (ms : Nat)
  | completeInterviewCall
  | setPhaseResults
  | nextQuestion
  deriving DecidableEq, Repr

/-- `handleInterviewComplete` of `MockInterview.jsx` (lines 28-31):
`await interview.completeInterview()` then `setInterviewPhase('results')`. -/
def handleInterviewComplete : List SessionAction :=
  [SessionAction.completeInterviewCall, SessionAction.setPhaseResults]

/-- `handleResponseSubmit` of `InterviewSession.jsx` (lines 73-102) as the
ordered trace of its effects: submit the response; on the last question
stop recording, issue one summary request when the flattened emotion data
is nonempty, wait the 500 ms grace delay, then run `onComplete`
(`handleInterviewComplete`); otherwise advance to the next question. -/
def handleResponseSubmit (isLastQuestion : Bool) (st : EmotionStore) (n : Nat)
    (text : String) (timeSpent : Nat) : List SessionAction :=
  SessionAction.submitResponse text timeSpent ::
    (if isLastQuestion then
      SessionAction.setRecordingOff ::
        ((if (objectValuesFlat st n).length > 0 then
            [SessionAction.emotionSummaryRequest (objectValuesFlat st n)]
          else [])
         ++ SessionAction.graceDelay 500 :: handleInterviewComplete)
    else [SessionAction.nextQuestion])

/-- Predicate picking out the capture-teardown signal
(`setIsRecording(false)`). -/
def isSetRecordingOff : SessionAction → Bool
  | .setRecordingOff => true
  | _ => false

/-- Predicate picking out the transition to the results phase
(`setInterviewPhase('results')`). -/
def isSetPhaseResults : SessionAction → Bool
  | .setPhaseResults => true
  | _ => false

/-- C3: on the terminal submission the capture-teardown signal is always
emitted, the results-phase transition is always emitted, and the teardown
signal strictly precedes the results-phase transition in the effect trace,
whatever the accumulated emotion data — so results never render before the
stop-recording signal. -/
theorem C3_teardown_before_results (st : EmotionStore) (n : Nat)
    (text : String) (timeSpent : Nat) :
    ((handleResponseSubmit true st n text timeSpent).any isSetRecordingOff = true)
    ∧ ((handleResponseSubmit true st n text timeSpent).any isSetPhaseResults = true)
    ∧ ((handleResponseSubmit true st n text timeSpent).findIdx isSetRecordingOff
        < (handleResponseSubmit true st n text timeSpent).findIdx isSetPhaseResults) := by
  by_cases h : (objectValuesFlat st n).length > 0 <;>
    simp [handleResponseSubmit, handleInterviewComplete, h, isSetRecordingOff,
      isSetPhaseResults, List.findIdx_cons]

/-- The emotion store after a session in which the iframe delivered the
listed sample arrays; `d.1` is the value of
`currentQuestionIndexRef.current` at the moment each result message
arrived, `d.2` the posted array.  The iframe posts only `emotion-data`
messages carrying arrays (`WebcamIframe.jsx` lines 139-147), so the
`audio_<i>` branch of `handleEmotionData` never fires during a session. -/
def applyDeliveries (ds : List (Nat × List VisualSample)) : EmotionStore :=
  ds.foldl (fun st d => handleEmotionData d.1 (EmotionDatum.video d.2) st) emptyStore

theorem foldlDeliveries_visual (ds : List (Nat × List VisualSample)) :
    ∀ (st0 : EmotionStore) (i : Nat),
    ((ds.foldl (fun st d => handleEmotionData d.1 (EmotionDatum.video d.2) st) st0).visual i)
      = st0.visual i ++ ((ds.filter (fun d => d.1 == i)).map Prod.snd) := by
  induction ds with
  | nil => intro st0 i; simp
  | cons d ds ih =>
    intro st0 i
    simp only [List.foldl_cons, ih]
    by_cases h : d.1 = i
    · simp [handleEmotionData, h, List.filter_cons]
    · have h' : ¬i = d.1 := fun he => h he.symm
      simp [handleEmotionData, h, h', List.filter_cons]

theorem foldlDeliveries_audio (ds : List (Nat × List VisualSample)) :
    ∀ (st0 : EmotionStore) (i : Nat),
    ((ds.foldl (fun st d => handleEmotionData d.1 (EmotionDatum.video d.2) st) st0).audio i)
      = st0.audio i := by
  induction ds with
  | nil => intro st0 i; rfl
  | cons d ds ih =>
    intro st0 i
    simp only [List.foldl_cons, ih]
    simp [handleEmotionData]

/-- Total number of visual emotion samples collected across all question
indices below `n`. -/
def totalVisualSamples (st : EmotionStore) (n : Nat) : Nat :=
  ((List.range n).map (fun i => ((st.visual i).map List.length).sum)).sum

/-- Predicate picking out the session-level summary request. -/
def isSummaryRequest : SessionAction → Bool
  | .emotionSummaryRequest _ => true
  | _ => false

/-- Number of summary requests in an effect trace. -/
def countSummary (tr : List SessionAction) : Nat := tr.countP isSummaryRequest

/-- The payloads of the summary requests in an effect trace, in order. -/
def summaryPayloads (tr : List SessionAction) : List (List EmotionEntry) :=
  tr.filterMap (fun a => match a with
    | SessionAction.emotionSummaryRequest p => some p
    | _ => none)

theorem sum_lengths_of_singletons (l : List (List VisualSample))
    (h : ∀ a ∈ l, a.length = 1) : (l.map List.length).sum = l.length := by
  induction l with
  | nil => simp
  | cons a l ih =>
    simp only [List.map_cons, List.sum_cons, List.length_cons]
    rw [h a (List.mem_cons_self a l), ih (fun x hx => h x (List.mem_cons_of_mem a hx))]
    omega

theorem flatten_length_eq_total (st : EmotionStore) (n : Nat)
    (h : ∀ i, ∀ a ∈ st.visual i, a.length = 1) :
    (((List.range n).map (fun i => (st.visual i).map EmotionEntry.videoArr)).flatten).length
      = totalVisualSamples st n := by
  induction n with
  | zero => simp [totalVisualSamples]
  | succ m ih =>
    simp only [totalVisualSamples, List.range_succ, List.map_append, List.flatten_append,
      List.length_append, List.sum_append, List.map_cons, List.map_nil, List.flatten_cons,
      List.flatten_nil, List.append_nil, List.sum_cons, List.sum_nil, List.length_map]
    rw [← totalVisualSamples]
    rw [ih, sum_lengths_of_singletons (st.visual m) (h m)]
    omega

/-- C6: for a session whose emotion store was built from the iframe's
deliveries (each carrying exactly one visual sample, filed under a valid
question index), the terminal submission issues the session-level summary
request exactly once when at least one visual sample was collected and
never otherwise, and the request payload is the concatenation of the
per-question visual sample lists in question order (no audio entries). -/
theorem C6_summary_iff_visual_samples (ds : List (Nat × List VisualSample)) (n : Nat)
    (text : String) (timeSpent : Nat)
    (_hidx : ∀ d ∈ ds, d.1 < n)
    (hone : ∀ d ∈ ds, d.2.length = 1) :
    countSummary (handleResponseSubmit true (applyDeliveries ds) n text timeSpent)
      = (if totalVisualSamples (applyDeliveries ds) n = 0 then 0 else 1)
    ∧ summaryPayloads (handleResponseSubmit true (applyDeliveries ds) n text timeSpent)
      = (if totalVisualSamples (applyDeliveries ds) n = 0 then []
         else [((List.range n).map
            (fun i => ((applyDeliveries ds).visual i).map EmotionEntry.videoArr)).flatten]) := by
  have hAudio : ∀ i, (applyDeliveries ds).audio i = none := fun i =>
    foldlDeliveries_audio ds emptyStore i
  have hVisual : ∀ i, (applyDeliveries ds).visual i
      = (ds.filter (fun d => d.1 == i)).map Prod.snd := by
    intro i
    simpa [emptyStore] using foldlDeliveries_visual ds emptyStore i
  have hmem : ∀ i, ∀ a ∈ (applyDeliveries ds).visual i, a.length = 1 := by
    intro i a ha
    rw [hVisual i] at ha
    obtain ⟨d, hd, rfl⟩ := List.mem_map.mp ha
    exact hone d (List.mem_of_mem_filter hd)
  have hovf : objectValuesFlat (applyDeliveries ds) n
      = ((List.range n).map
          (fun i => ((applyDeliveries ds).visual i).map EmotionEntry.videoArr)).flatten := by
    unfold objectValuesFlat
    simp [hAudio]
  have hlen : (objectValuesFlat (applyDeliveries ds) n).length
      = totalVisualSamples (applyDeliveries ds) n := by
    rw [hovf]
    exact flatten_length_eq_total (applyDeliveries ds) n hmem
  by_cases h : (objectValuesFlat (applyDeliveries ds) n).length > 0
  · have htot : ¬ totalVisualSamples (applyDeliveries ds) n = 0 := by omega
    constructor
    · simp [handleResponseSubmit, handleInterviewComplete, h, htot, countSummary,
        isSummaryRequest]
    · rw [if_neg htot]
      simp only [handleResponseSubmit, handleInterviewComplete, if_pos h, summaryPayloads,
        List.filterMap_cons, List.filterMap_append, List.filterMap_nil]
      simp [hovf]
  · have htot : totalVisualSamples (applyDeliveries ds) n = 0 := by omega
    constructor
    · simp [handleResponseSubmit, handleInterviewComplete, h, htot, countSummary,
        isSummaryRequest]
    · rw [if_pos htot]
      simp only [handleResponseSubmit, handleInterviewComplete, if_neg h, summaryPayloads,
        List.filterMap_cons, List.filterMap_append, List.filterMap_nil]
      simp

/-- Witness for C6: one delivery of one sample for question 0 in a
one-question session yields exactly one summary request whose payload
holds that sample. -/
theorem C6_summary_iff_visual_samples_witness :
    ((∀ d ∈ [((0 : Nat), [sampleW])], d.1 < 1) ∧ (∀ d ∈ [((0 : Nat), [sampleW])], d.2.length = 1))
    ∧ countSummary (handleResponseSubmit true (applyDeliveries [(0, [sampleW])]) 1 "answer" 7)
      = (if totalVisualSamples (applyDeliveries [(0, [sampleW])]) 1 = 0 then 0 else 1) := by
  refine ⟨⟨by decide, by decide⟩, ?_⟩
  exact (C6_summary_iff_visual_samples [(0, [sampleW])] 1 "answer" 7
    (by decide) (by decide)).1

/-- One observable effect of the voice-capture controller
(`ResponseInput.jsx`): the synchronous stop handler and the asynchronous
`recorder.onstop` callback. -/
inductive VoiceAction where
  | recorderStopRequested
  | micTracksStopped
  | setRecordingFalse
  | timerCleared
  | transcribingOn
  | blobBuilt
  | transcribeRequestIssued
  | emotionRequestIssued
  | transcriptionSettled
  | emotionSettled
  | resultsProcessed
  | transcribingOff
  deriving DecidableEq, Repr

/-- The `else` branch of `toggleRecording` (`ResponseInput.jsx` lines
178-190), in program order: `mediaRecorder.stop()`, then
`mediaRecorder.stream.getTracks().forEach(track => track.stop())`
(synchronous microphone release), then `setIsRecording(false)` and timer
cleanup — all before the handler returns. -/
def toggleRecordingStopSync : List VoiceAction :=
  [VoiceAction.recorderStopRequested, VoiceAction.micTracksStopped,
   VoiceAction.setRecordingFalse, VoiceAction.timerCleared]

/-- The `recorder.onstop` callback (`ResponseInput.jsx` lines 88-162):
it runs on a later event-loop task, sets the transcribing flag, builds the
blob, issues the transcription and vocal-emotion requests together
(`Promise.all`, issuance order is array order), then awaits both — in
either settle order — processes the results and clears the flag in
`finally`. -/
def onStopTrace (emotionResolvesFirst : Bool) : List VoiceAction :=
  [VoiceAction.transcribingOn, VoiceAction.blobBuilt,
   VoiceAction.transcribeRequestIssued, VoiceAction.emotionRequestIssued]
  ++ (if emotionResolvesFirst then
        [VoiceAction.emotionSettled, VoiceAction.transcriptionSettled]
      else
        [VoiceAction.transcriptionSettled, VoiceAction.emotionSettled])
  ++ [VoiceAction.resultsProcessed, VoiceAction.transcribingOff]

/-- The complete effect trace of stopping voice capture: the synchronous
stop handler followed by the asynchronous `onstop` callback. -/
def stopVoiceTrace (emotionResolvesFirst : Bool) : List VoiceAction :=
  toggleRecordingStopSync ++ onStopTrace emotionResolvesFirst

/-- C4: whenever voice capture is stopped, the microphone tracks are
stopped inside the synchronous stop handler, strictly before the
transcription and vocal-emotion requests are issued in the asynchronous
`onstop` callback, and strictly before either request settles — in both
settle orders — so microphone release never waits on a network request. -/
theorem C4_mic_release_before_requests (emotionResolvesFirst : Bool) :
    VoiceAction.micTracksStopped ∈ toggleRecordingStopSync
    ∧ ((stopVoiceTrace emotionResolvesFirst).findIdx (· == VoiceAction.micTracksStopped)
        < (stopVoiceTrace emotionResolvesFirst).findIdx (· == VoiceAction.transcribeRequestIssued))
    ∧ ((stopVoiceTrace emotionResolvesFirst).findIdx (· == VoiceAction.micTracksStopped)
        < (stopVoiceTrace emotionResolvesFirst).findIdx (· == VoiceAction.emotionRequestIssued))
    ∧ ((stopVoiceTrace emotionResolvesFirst).findIdx (· == VoiceAction.micTracksStopped)
        < (stopVoiceTrace emotionResolvesFirst).findIdx (· == VoiceAction.transcriptionSettled))
    ∧ ((stopVoiceTrace emotionResolvesFirst).findIdx (· == VoiceAction.micTracksStopped)
        < (stopVoiceTrace emotionResolvesFirst).findIdx (· == VoiceAction.emotionSettled)) := by
  cases emotionResolvesFirst <;> decide

/-- How the transcription request resolves: `netError` models a fetch
rejection or a body that fails to parse (the surrounding `try` catches
it); otherwise the parsed body with its `success` flag, whether a
`transcription` object is present, and its `cleaned_text` / `raw_text`
fields (`cleanedText = none` models an absent or null field). -/
inductive TranscriptionOutcome where
  | netError
  | response (success : Bool) (hasTranscription : Bool)
      (cleanedText : Option String) (rawText : String)
  deriving DecidableEq, Repr

/-- How the vocal-emotion request resolves: `unavailable` models the
fetch rejecting (its own `.catch` turns it into `null`), `httpNotOk` a
response with `ok` false, and `okBody` a parsed body whose `emotion`
field may be absent. -/
inductive EmotionOutcome where
  | unavailable
  | httpNotOk
  | okBody (emotion : Option String) (confidencePct : Nat)
  deriving DecidableEq, Repr

/-- The observable outcome of one run of the `recorder.onstop` callback:
what was appended to the draft, whether the user-visible transcription
alert fired, whether/with what `setAudioEmotion` was called
(`none` = never called, `some none` = called with `null`), and the final
transcribing flag. -/
structure OnStopResult where
  appendedText : Option String
  alertShown : Bool
  audioEmotionSet : Option (Option AudioEmotion)
  isTranscribingAfter : Bool
  deriving DecidableEq, Repr

/-- JavaScript `a || b` on strings: an absent, null or empty
`cleaned_text` falls back to `raw_text`. -/
def jsStringOr (a : Option String) (b : String) : String :=
  match a with
  | some s => if s = "" then b else s
  | none => b

/-- The emotion-handling block of `recorder.onstop` (`ResponseInput.jsx`
lines 131-155): it calls `setAudioEmotion` with data only for an ok
response whose body has an `emotion` field, calls `setAudioEmotion(null)`
for an unavailable service or non-ok response, and otherwise does not
call it. -/
def emotionHandling (eOut : EmotionOutcome) : Option (Option AudioEmotion) :=
  match eOut with
  | .unavailable => some none
  | .httpNotOk => some none
  | .okBody none _ => none
  | .okBody (some e) c => some (some ⟨e, c⟩)

/-- The `recorder.onstop` callback of `ResponseInput.jsx` (lines 88-162)
as a function of how the two requests settle.  The vocal-emotion fetch
carries its own `.catch` returning `null`, so only the transcription
side can throw into the outer `catch`; when it does (network error /
parse failure), the code alerts and skips the whole result-handling
block, including the emotion block.  A body-level transcription failure
(`success` false or no `transcription`) alerts but continues into the
emotion block.  The `finally` always clears the transcribing flag. -/
def onStopProcess (tOut : TranscriptionOutcome) (eOut : EmotionOutcome) : OnStopResult :=
  match tOut with
  | .netError =>
      { appendedText := none
        alertShown := true
        audioEmotionSet := none
        isTranscribingAfter := false }
  | .response success hasTranscription cleanedText rawText =>
      { appendedText :=
          if success && hasTranscription then some (jsStringOr cleanedText rawText) else none
        alertShown := !(success && hasTranscription)
        audioEmotionSet := emotionHandling eOut
        isTranscribingAfter := false }

/-- Counterexample for C5 as stated: when the transcription fetch fails
at the network level while the vocal-emotion request succeeds with a
valid emotion, the emotion result is dropped (`setAudioEmotion` is never
called), i.e. the failed transcription request does abort the
vocal-emotion result. -/
theorem C5_counterexample :
    ((onStopProcess TranscriptionOutcome.netError
        (EmotionOutcome.okBody (some "happy") 80)).audioEmotionSet = none)
    ∧ ((onStopProcess TranscriptionOutcome.netError
        (EmotionOutcome.okBody (some "happy") 80)).alertShown = true)
    ∧ emotionHandling (EmotionOutcome.okBody (some "happy") 80) = some (some ⟨"happy", 80⟩) := by
  exact ⟨rfl, rfl, rfl⟩

/-- C5 amended: the two requests have asymmetric failure boundaries.  A
failed vocal-emotion request never affects the transcription result
(text handling is identical whatever the emotion outcome, and the
failure degrades to `setAudioEmotion(null)`); a transcription failure
reported in the response body surfaces the user-visible alert while the
emotion result is still processed; but a network-level transcription
failure aborts the emotion result as well — in every case the
transcribing flag is cleared so text entry remains usable. -/
theorem C5_failure_boundaries (success hasTranscription : Bool)
    (cleanedText : Option String) (rawText : String) (eOut : EmotionOutcome) :
    ((onStopProcess (.response success hasTranscription cleanedText rawText) eOut).appendedText
      = (onStopProcess (.response success hasTranscription cleanedText rawText)
          EmotionOutcome.unavailable).appendedText)
    ∧ ((onStopProcess (.response success hasTranscription cleanedText rawText)
          EmotionOutcome.unavailable).audioEmotionSet = some none)
    ∧ ((onStopProcess (.response false hasTranscription cleanedText rawText) eOut).audioEmotionSet
        = emotionHandling eOut)
    ∧ ((onStopProcess (.response false hasTranscription cleanedText rawText) eOut).alertShown
        = true)
    ∧ ((onStopProcess TranscriptionOutcome.netError eOut).audioEmotionSet = none)
    ∧ ((onStopProcess TranscriptionOutcome.netError eOut).alertShown = true)
    ∧ (∀ tOut, (onStopProcess tOut eOut).isTranscribingAfter = false) := by
  refine ⟨rfl, rfl, rfl, rfl, rfl, rfl, ?_⟩
  intro tOut
  cases tOut <;> rfl

/-- The `ResponseInput` component state (`ResponseInput.jsx` lines
15-23): the draft text, the interview hook's loading flag, the recording
and transcribing flags, the audio-emotion display slot, and `startTime`
fixed once by `useState(Date.now())` at mount. -/
structure ResponseInputState where
  response : String
  isLoading : Bool
  isTranscribing : Bool
  isRecording : Bool
  audioEmotion : Option AudioEmotion
  startTime : Nat
  deriving DecidableEq, Repr

/-- JavaScript `String.prototype.trim`, modelled on the character list:
strip leading and trailing whitespace. -/
def jsTrim (s : String) : String :=
  ⟨((s.data.dropWhile Char.isWhitespace).reverse.dropWhile Char.isWhitespace).reverse⟩

/-- The submit button's `disabled` expression (`ResponseInput.jsx` line
309): `isLoading || !response.trim()` — a JavaScript string is falsy
exactly when empty. -/
def submitDisabled (s : ResponseInputState) : Bool :=
  s.isLoading || jsTrim s.response == ""

/-- The mic button's `disabled` expression (`ResponseInput.jsx` line
234): `isTranscribing`. -/
def micDisabled (s : ResponseInputState) : Bool :=
  s.isTranscribing

/-- `handleSubmit` (`ResponseInput.jsx` lines 193-197): the elapsed-time
value handed to the state machine is
`Math.floor((Date.now() - startTime) / 1000)`. -/
def timeSpentOnSubmit (s : ResponseInputState) (nowMs : Nat) : Nat :=
  (nowMs - s.startTime) / 1000

/-- Mounting `ResponseInput`: `useState` initializers run once, fixing
`startTime` to the mount instant (the first question's display). -/
def mountResponseInput (nowMs : Nat) (currentResponse : String) : ResponseInputState :=
  { response := currentResponse
    isLoading := false
    isTranscribing := false
    isRecording := false
    audioEmotion := none
    startTime := nowMs }

/-- The `useEffect` on `[currentResponse, questionIndex]`
(`ResponseInput.jsx` lines 26-30): a question change resets the draft and
clears the audio emotion; `startTime` is not reset. -/
def questionChangeEffect (s : ResponseInputState) (currentResponse : String) :
    ResponseInputState :=
  { s with response := currentResponse, audioEmotion := none }

/-- A state-changing event on the mounted component that can occur
between mount and a submit click: a question advance or the candidate
editing the textarea. -/
inductive RIEvent where
  | questionChange (currentResponse : String)
  | typeText (text : String)
  deriving DecidableEq, Repr

/-- One component update. -/
def riStep (s : ResponseInputState) (e : RIEvent) : ResponseInputState :=
  match e with
  | .questionChange currentResponse => questionChangeEffect s currentResponse
  | .typeText text => { s with response := text }

/-- Counterexample for C7 as stated: with a transcription request in
flight (`isTranscribing = true`), a non-blank draft and the interview
hook not loading, the submit button is enabled — submission is not
blocked while transcription is in flight. -/
theorem C7_counterexample :
    submitDisabled ⟨"hello", false, true, false, none, 0⟩ = false
    ∧ (⟨"hello", false, true, false, none, 0⟩ : ResponseInputState).isTranscribing = true
    ∧ micDisabled ⟨"hello", false, true, false, none, 0⟩ = true := by
  exact ⟨rfl, rfl, rfl⟩

/-- C7 amended: the response surface blocks submission exactly while the
draft is empty or whitespace-only or while the interview hook is loading
(a submission in flight); a transcription in flight disables the mic
toggle, not the submit action. -/
theorem C7_submit_guard (s : ResponseInputState) :
    (jsTrim s.response = "" → submitDisabled s = true)
    ∧ (s.isLoading = true → submitDisabled s = true)
    ∧ (submitDisabled s = false ↔ (s.isLoading = false ∧ jsTrim s.response ≠ ""))
    ∧ micDisabled s = s.isTranscribing := by
  refine ⟨?_, ?_, ?_, rfl⟩
  · intro h
    simp [submitDisabled, h]
  · intro h
    simp [submitDisabled, h]
  · constructor
    · intro h
      have := h
      simp [submitDisabled] at this
      exact ⟨this.1, by simpa using this.2⟩
    · intro ⟨h1, h2⟩
      simp [submitDisabled, h1, h2]

/-- Witness for C7 amended: a whitespace-only draft blocks submission. -/
theorem C7_submit_guard_witness :
    (jsTrim "   " = "")
    ∧ submitDisabled ⟨"   ", false, false, false, none, 0⟩ = true := by
  refine ⟨by decide, ?_⟩
  exact (C7_submit_guard ⟨"   ", false, false, false, none, 0⟩).1 (by decide)

theorem riStep_startTime (e : RIEvent) (s : ResponseInputState) :
    (riStep s e).startTime = s.startTime := by
  cases e <;> rfl

theorem foldl_riStep_startTime (evs : List RIEvent) :
    ∀ s : ResponseInputState, (evs.foldl riStep s).startTime = s.startTime := by
  induction evs with
  | nil => intro s; rfl
  | cons e evs ih =>
    intro s
    rw [List.foldl_cons, ih, riStep_startTime]

/-- Counterexample for C9 as stated: the component mounts (first question
displayed) at 0 ms; the question advances at 10000 ms and the second
question is submitted at 25000 ms.  The code hands the state machine
25 seconds — the time since mount — while the whole seconds from the
second question's display to the submit click are 15. -/
theorem C9_counterexample :
    timeSpentOnSubmit (riStep (mountResponseInput 0 "") (RIEvent.questionChange "")) 25000 = 25
    ∧ (25000 - 10000) / 1000 = 15
    ∧ (25 : Nat) ≠ 15 := by
  exact ⟨rfl, rfl, by decide⟩

/-- C9 amended: the elapsed-time value handed to the state machine on any
submit equals the whole seconds from the component's mount — the first
question's display — to the submit click, whatever question changes or
edits happened in between; it equals time-on-question only for the first
question. -/
theorem C9_time_measured_from_mount (mountMs nowMs : Nat) (currentResponse : String)
    (evs : List RIEvent) :
    timeSpentOnSubmit (evs.foldl riStep (mountResponseInput mountMs currentResponse)) nowMs
      = (nowMs - mountMs) / 1000 := by
  unfold timeSpentOnSubmit
  rw [foldl_riStep_startTime]
  rfl

/-- A JSON value as produced by the service's `res.json` bodies.  Float
arithmetic is modelled exactly over the rationals. -/
inductive JsonVal where
  | jnum (q : ℚ)
  | jstr (s : String)
  | jbool (b : Bool)
  | jnull
  | jobj (fields : List (String × JsonVal))

/-- The slice of a detected face used by the endpoint: `box[2]`, `box[3]`
and the per-label emotion scores in `[0, 1]`. -/
structure Face where
  boxW : Nat
  boxH : Nat
  emotion : List (String × ℚ)

/-- The result of `tf.node.decodeImage` plus `human.detect`: either the
`try` block throws (bad image, detector failure) or a — possibly empty —
face list comes back. -/
inductive DecodeDetect where
  | throws (msg : String)
  | detected (faces : List Face)

/-- One request to `POST /analyze-emotion` plus the environment behaviour
it triggers: whether multer attached a file, the decoded image
dimensions, the measured detection time, and the detection outcome. -/
structure AnalyzeRequest where
  hasFile : Bool
  width : Nat
  height : Nat
  detectionTimeMs : Nat
  detect : DecodeDetect

/-- Mutable module state of `human_emotion_service.js`: the readiness
flag, the frame counter, the rolling detection-time window, the rolling
emotion history, and the TensorFlow version string reported in bodies. -/
structure ServiceState where
  isReady : Bool
  frameCount : Nat
  detectionTimes : List Nat
  emotionHistory : List (List (String × JsonVal))
  tfVersion : String

/-- The bias-correction factors of the endpoint (neutral damped, the
expressive labels boosted; unknown labels untouched). -/
def biasCorrection (e : String) : ℚ :=
  if e = "neutral" then 3/10
  else if e = "happy" then 2
  else if e = "sad" then 9/5
  else if e = "angry" then 9/5
  else if e = "surprise" then 8/5
  else if e = "fear" then 9/5
  else if e = "disgust" then 9/5
  else 1

/-- `Math.min(emotion.score * correctionFactor, 1.0)`. -/
def correctedScore (p : String × ℚ) : ℚ := min (p.2 * biasCorrection p.1) 1

/-- The first `emotions.forEach` loop: running maximum of corrected
scores, seeded with `('neutral', 0)` and updated on strict increase. -/
def dominantFold (emotions : List (String × ℚ)) : String × ℚ :=
  emotions.foldl
    (fun acc p => if correctedScore p > acc.2 then (p.1, correctedScore p) else acc)
    ("neutral", 0)

/-- The second `emotions.forEach` loop: the best corrected score among
non-neutral labels, seeded with `(null, 0)`. -/
def secondFold (emotions : List (String × ℚ)) : Option String × ℚ :=
  emotions.foldl
    (fun acc p =>
      if p.1 ≠ "neutral" then
        if correctedScore p > acc.2 then (some p.1, correctedScore p) else acc
      else acc)
    (none, 0)

/-- The neutral-reconsideration block: when neutral wins with corrected
score below `0.6` and some other label scores above `0.25`, that label
takes over. -/
def adjustNeutral (emotions : List (String × ℚ)) (dm : String × ℚ) : String × ℚ :=
  if dm.1 = "neutral" ∧ dm.2 < 3/5 then
    match secondFold emotions with
    | (some e, s) => if s > 1/4 then (e, s) else dm
    | (none, _) => dm
  else dm

/-- `emotionScores`: each label mapped to
`Math.round(correctedScore * 100 * 10) / 10` (a one-decimal percent). -/
def emotionScores (emotions : List (String × ℚ)) : List (String × ℚ) :=
  emotions.map (fun p => (p.1, ((round (correctedScore p * 1000) : ℤ) : ℚ) / 10))

/-- The seven baseline labels of the `allEmotions` object, in source
order. -/
def baseEmotionKeys : List String :=
  ["happy", "sad", "angry", "fear", "surprise", "disgust", "neutral"]

/-- Object-spread lookup with default `0`. -/
def lookupScore (scores : List (String × ℚ)) (k : String) : ℚ :=
  match scores.find? (fun p => p.1 == k) with
  | some p => p.2
  | none => 0

/-- `{ happy: 0, ..., neutral: 0, ...emotionScores }`: the baseline keys
with their overridden values, then any extra labels in insertion order. -/
def allEmotionsField (scores : List (String × ℚ)) : JsonVal :=
  JsonVal.jobj
    ((baseEmotionKeys.map (fun k => (k, JsonVal.jnum (lookupScore scores k))))
      ++ ((scores.filter (fun p => decide (p.1 ∉ baseEmotionKeys))).map
            (fun p => (p.1, JsonVal.jnum p.2))))

/-- The face-position classification and its warning: too far below a 3%
area share, too close above 40%, and `multiple_faces` overriding both
when more than one face was detected. -/
def facePosition (faceCount : Nat) (faceFrac : ℚ) : String × Option String :=
  if faceCount > 1 then
    ("multiple_faces", some (toString faceCount ++ " people detected - only one allowed"))
  else if faceFrac < 3/100 then ("too_far", some "Move closer to camera")
  else if faceFrac > 2/5 then ("too_close", some "Move back from camera")
  else ("good", none)

/-- `detectionTimes.push(detectionTime)` followed by a `shift` once the
window exceeds 50 entries. -/
def pushDetectionTime (dts : List Nat) (t : Nat) : List Nat :=
  if (dts ++ [t]).length > 50 then (dts ++ [t]).tail else dts ++ [t]

/-- A nullable string field (`warning` is `null` when no warning). -/
def optStr (w : Option String) : JsonVal :=
  match w with
  | some s => JsonVal.jstr s
  | none => JsonVal.jnull

/-- The `POST /analyze-emotion` handler of `human_emotion_service.js`
(lines 71-276): returns the HTTP status (every path uses `res.json`,
hence 200), the response body as an ordered field list, and the updated
module state.  Paths: models still loading, no file uploaded, detection
exception, no face, and success. -/
def analyzeEmotion (st : ServiceState) (req : AnalyzeRequest) :
    Nat × List (String × JsonVal) × ServiceState :=
  let fc := st.frameCount + 1
  let st1 : ServiceState := { st with frameCount := fc }
  if st1.isReady = false then
    (200,
     [("success", JsonVal.jbool false),
      ("dominant_emotion", JsonVal.jstr "models_loading"),
      ("confidence", JsonVal.jnum 0),
      ("all_emotions", JsonVal.jobj []),
      ("error", JsonVal.jstr "Models still loading"),
      ("frame_number", JsonVal.jnum fc)],
     st1)
  else if req.hasFile = false then
    (200,
     [("success", JsonVal.jbool false),
      ("dominant_emotion", JsonVal.jstr "no_file"),
      ("confidence", JsonVal.jnum 0),
      ("all_emotions", JsonVal.jobj []),
      ("error", JsonVal.jstr "No file uploaded"),
      ("frame_number", JsonVal.jnum fc)],
     st1)
  else
    match req.detect with
    | .throws msg =>
        (200,
         [("success", JsonVal.jbool false),
          ("error", JsonVal.jstr msg),
          ("dominant_emotion", JsonVal.jstr "error"),
          ("confidence", JsonVal.jnum 0),
          ("all_emotions", JsonVal.jobj []),
          ("frame_number", JsonVal.jnum fc),
          ("detection_time_ms", JsonVal.jnum req.detectionTimeMs)],
         st1)
    | .detected faces =>
      let dts := pushDetectionTime st1.detectionTimes req.detectionTimeMs
      let st2 : ServiceState := { st1 with detectionTimes := dts }
      let avgTime : ℚ := ((dts.map (fun t => (t : ℚ))).sum) / dts.length
      match faces with
      | [] =>
          (200,
           [("success", JsonVal.jbool false),
            ("dominant_emotion", JsonVal.jstr "no_face"),
            ("confidence", JsonVal.jnum 0),
            ("all_emotions", allEmotionsField []),
            ("frame_number", JsonVal.jnum fc),
            ("face_detected", JsonVal.jbool false),
            ("face_count", JsonVal.jnum 0),
            ("face_position", JsonVal.jstr "no_face"),
            ("warning", JsonVal.jstr "Position your face in front of camera"),
            ("detection_time_ms", JsonVal.jnum req.detectionTimeMs),
            ("avg_detection_time_ms", JsonVal.jnum (round avgTime)),
            ("tf_version", JsonVal.jstr st2.tfVersion)],
           st2)
      | face :: _ =>
          let faceArea : ℚ := (face.boxW : ℚ) * (face.boxH : ℚ)
          let imageArea : ℚ := (req.width : ℚ) * (req.height : ℚ)
          let faceFrac : ℚ := if imageArea > 0 then faceArea / imageArea else 0
          let pw := facePosition faces.length faceFrac
          let dm := adjustNeutral face.emotion (dominantFold face.emotion)
          let body :=
            [("success", JsonVal.jbool true),
             ("dominant_emotion", JsonVal.jstr dm.1),
             ("confidence", JsonVal.jnum (((round (dm.2 * 1000) : ℤ) : ℚ) / 10)),
             ("all_emotions", allEmotionsField (emotionScores face.emotion)),
             ("frame_number", JsonVal.jnum fc),
             ("face_detected", JsonVal.jbool true),
             ("face_count", JsonVal.jnum faces.length),
             ("face_position", JsonVal.jstr pw.1),
             ("face_area_percent", JsonVal.jnum (((round (faceFrac * 1000) : ℤ) : ℚ) / 10)),
             ("warning", optStr pw.2),
             ("detection_time_ms", JsonVal.jnum req.detectionTimeMs),
             ("avg_detection_time_ms", JsonVal.jnum (round avgTime)),
             ("tf_version", JsonVal.jstr st2.tfVersion)]
          let st3 : ServiceState := { st2 with emotionHistory :=
            if (st2.emotionHistory ++ [body]).length > 100 then
              (st2.emotionHistory ++ [body]).tail
            else st2.emotionHistory ++ [body] }
          (200, body, st3)

/-- Whether a response body contains a field with the given key. -/
def hasField (body : List (String × JsonVal)) (k : String) : Bool :=
  body.any (fun p => p.1 == k)

/-- C10: the `/analyze-emotion` endpoint is total at the HTTP interface —
on every path (models loading, missing file, detection exception, no
face, success) it answers with HTTP status 200 and a JSON body that
contains the fields `success`, `dominant_emotion`, `confidence` and
`all_emotions`. -/
theorem C10_analyze_emotion_total (st : ServiceState) (req : AnalyzeRequest) :
    (analyzeEmotion st req).1 = 200
    ∧ hasField (analyzeEmotion st req).2.1 "success" = true
    ∧ hasField (analyzeEmotion st req).2.1 "dominant_emotion" = true
    ∧ hasField (analyzeEmotion st req).2.1 "confidence" = true
    ∧ hasField (analyzeEmotion st req).2.1 "all_emotions" = true := by
  rcases st with ⟨isReady, fc, dts, hist, tfv⟩
  rcases req with ⟨hasFile, width, height, dtms, detect⟩
  cases isReady <;> cases hasFile <;>
    rcases detect with msg | faces <;>
    first
      | (refine ⟨rfl, rfl, rfl, rfl, rfl⟩)
      | (rcases faces with _ | ⟨face, rest⟩ <;>
          simp [analyzeEmotion, hasField, allEmotionsField, baseEmotionKeys])
